import Mathlib

/-!
Shallow embedding of the news-scraping core of this repository
(`container/scraper.py`: `NewsArticle`, `SiteConfig`, `NewsScraper`).

Modelling conventions:

* HTML documents are abstracted by the selector interface the code actually
  uses: `Soup.select` (list of section nodes), `Sect.select` (list of card
  nodes), `Card.selectOne` / `Soup.selectOne` (first node matching a CSS
  selector, `None` when absent), `Elem.get` / `Card.get` (attribute lookup,
  `None` when absent), `Elem.text` (the node text for `get_text()`).
* The outside world (the `requests` library, the `html.parser` step of
  BeautifulSoup, the `dateutil` general parser, `date.today()`, and pydantic's
  `HttpUrl` string validator) is an explicit `Env` record, so every function
  of the embedding is a pure function of `Env` and its Python arguments.
* A Python call that can raise an uncaught exception is embedded as
  `Except String α`; the string names the Python exception class.
* Machine details: Python `str.isdigit` is modelled on ASCII digits,
  `str.strip()` as `pyStrip` (ASCII whitespace), and the float division
  `int(s) / 1000` inside `datetime.fromtimestamp` as exact rational division
  followed by flooring to a day count (exact for the timestamp magnitudes the
  spec discusses).  All string primitives of the embedding are structurally
  recursive functions on the underlying character lists, so every concrete
  run below evaluates inside the kernel.
-/

/-- A calendar date, the embedding of Python `datetime.date`. -/
structure Date where
  year : Int
  month : Int
  day : Int
deriving DecidableEq, Repr

/-- Civil-from-days conversion: the proleptic Gregorian calendar date of a
day count relative to the Unix epoch 1970-01-01 (day 0).  This is the
arithmetic performed by CPython when a UTC `datetime` built by
`datetime.fromtimestamp(_, tz=timezone.utc)` is asked for its `.date()`. -/
def civilFromDays (z0 : Int) : Date :=
  let z := z0 + 719468
  let era := Int.fdiv z 146097
  let doe := z - era * 146097
  let yoe := Int.fdiv (doe - Int.fdiv doe 1460 + Int.fdiv doe 36524 - Int.fdiv doe 146096) 365
  let y := yoe + era * 400
  let doy := doe - (365 * yoe + Int.fdiv yoe 4 - Int.fdiv yoe 100)
  let mp := Int.fdiv (5 * doy + 2) 153
  let d := doy - Int.fdiv (153 * mp + 2) 5 + 1
  let m := if mp < 10 then mp + 3 else mp - 9
  { year := y + (if m ≤ 2 then 1 else 0), month := m, day := d }

/-- Embedding of `dt.fromtimestamp(int(date_str) / 1000, tz=timezone.utc).date()`
(scraper.py line 177): a millisecond epoch timestamp floored to a day count
and converted to a UTC calendar date. -/
def fromtimestampMsDate (ms : Int) : Date :=
  civilFromDays (Int.fdiv ms 86400000)

/-- Python `str.isdigit()` (modelled on ASCII digits): true iff the string is
non-empty and every character is a digit. -/
def isDigitString (s : String) : Bool :=
  !s.data.isEmpty && s.data.all Char.isDigit

/-- The numeric value of a string of decimal digits, the embedding of
Python `int(s)` on the all-digit strings reaching the epoch branch of
`parse_date`. -/
def digitsToNat (l : List Char) : Nat :=
  l.foldl (fun acc c => acc * 10 + (c.toNat - 48)) 0

/-- Drop leading and trailing whitespace, the embedding of Python
`str.strip()` (modelled on ASCII whitespace). -/
def stripList (l : List Char) : List Char :=
  ((l.dropWhile Char.isWhitespace).reverse.dropWhile Char.isWhitespace).reverse

/-- Python `str.strip()` on a string. -/
def pyStrip (s : String) : String :=
  { data := stripList s.data }

/-- Whether `pat` occurs as a leading run of `l`. -/
def prefixOfList : List Char → List Char → Bool
  | [], _ => true
  | _ :: _, [] => false
  | a :: as, b :: bs => a = b && prefixOfList as bs

/-- Whether `needle` occurs as a contiguous run anywhere in `hay`. -/
def sublistSearch (needle : List Char) : List Char → Bool
  | [] => prefixOfList needle []
  | c :: t => prefixOfList needle (c :: t) || sublistSearch needle t

/-- Python substring membership `needle in hay` for strings. -/
def strContains (hay needle : String) : Bool :=
  sublistSearch needle.data hay.data

/-- A DOM element as the scraper reads it: attribute lookup (`elem.get(a)`,
`None` when the attribute is absent) and node text (`elem.get_text()`). -/
structure Elem where
  get : String → Option String
  text : String

/-- An article card node: `card.select_one(sel)` and `card.get(attr)`. -/
structure Card where
  selectOne : String → Option Elem
  get : String → Option String

/-- A section node: `section.select(sel)` returns its matching cards in
document order. -/
structure Sect where
  select : String → List Card

/-- A parsed page: `soup.select(sel)` (sections in document order) and
`soup.select_one(sel)` (used on the article page in the date fallback). -/
structure Soup where
  select : String → List Sect
  selectOne : String → Option Elem

/-- Result of one `requests.get(url)` call: either the request raises
(`requests.RequestException`, e.g. a transport failure) or a response with a
status code and body arrives. -/
inductive HttpResult where
  | exn (msg : String)
  | resp (status : Nat) (content : String)

/-- The external world the scraper runs against.

* `net`: what `requests.get` does for each URL.
* `parseHtml`: the `bs(html, "html.parser")` step, a total function from a
  body to a parsed document (BeautifulSoup accepts any string).
* `dateutil`: the general `dateutil.parser.parse(s).date()` call, an external
  library; `some d` models a successful parse, `none` models the
  `ValueError` it raises on unparsable input.
* `today`: the value of `date.today()` during the run.
* `validUrl`: pydantic's `HttpUrl` string validator (external library);
  `false` models a `ValidationError` raised at `NewsArticle` construction. -/
structure Env where
  net : String → HttpResult
  parseHtml : String → Soup
  dateutil : String → Option Date
  today : Date
  validUrl : String → Bool

/-- Embedding of `NewsScraper.get_page_html` (scraper.py lines 133-142).
A transport failure propagates as the `requests` exception.  A non-success
status code is only logged (line 137-140): the body is still returned
(lines 141-142), whatever the status was. -/
def get_page_html (env : Env) (url : String) : Except String String :=
  match env.net url with
  | .exn m => .error m
  | .resp _ content => .ok content

/-- Embedding of `NewsScraper.get_soup` (scraper.py lines 144-168): fetch the
body with `get_page_html` and parse it; the only exception source is the
fetch itself. -/
def get_soup (env : Env) (url : String) : Except String Soup :=
  (get_page_html env url).map env.parseHtml

/-- Embedding of `NewsScraper.parse_date` (scraper.py lines 170-183), at its
call site `parse_date(date_str)` where `date_str` may be `None` (it is the
result of `.get(...)` on a node).  On `None`, `date_str.isdigit()` raises
`AttributeError`, which the `except ValueError` clause does not catch.  On a
digit string the millisecond-epoch branch runs; otherwise `dateutil` is
tried, and its `ValueError` is caught and replaced by `date.today()`. -/
def parse_date (env : Env) (date_str : Option String) : Except String Date :=
  match date_str with
  | none => .error "AttributeError"
  | some s =>
    if isDigitString s then
      .ok (fromtimestampMsDate (Int.ofNat (digitsToNat s.data)))
    else
      match env.dateutil s with
      | some d => .ok d
      | none => .ok env.today

/-- Embedding of `NewsArticle` (scraper.py lines 15-35).  `url` keeps the
string that was passed to the pydantic model; its validation is the
`Env.validUrl` gate in `mkNewsArticle`.  `summary` is always passed a string
by `scrape_site` (possibly empty), so it is a plain `String` here. -/
structure NewsArticle where
  site_name : String
  title : String
  url : String
  published_date : Date
  summary : String
deriving DecidableEq, Repr

/-- Embedding of the `NewsArticle(...)` constructor call (scraper.py lines
274-282): pydantic validates the `url` field against `HttpUrl` and raises
`ValidationError` when it is rejected; the other fields (`str`, `date`) are
accepted as given, with no constraint on `title` beyond being a string. -/
def mkNewsArticle (env : Env) (site_name title url : String) (pub : Date)
    (summary : String) : Except String NewsArticle :=
  if env.validUrl url then
    .ok { site_name := site_name, title := title, url := url,
          published_date := pub, summary := summary }
  else
    .error "ValidationError"

/-- Embedding of `SiteConfig` (scraper.py lines 38-73).  `base_url` holds the
string form `str(base_url)` of the validated pydantic v2 `HttpUrl` (what the
f-string interpolation at line 229 sees), and `base_host` its `.host`. -/
structure SiteConfig where
  base_url : String
  base_host : String
  news_url : Option String
  section_selector : String
  card_selector : String
  title_selector : String
  link_selector : String
  keyword : Option String
  summary_selector : Option String
  date_selector : Option String
  date_attribute : String

/-- The characters following the first occurrence of the scheme separator
`"://"`, when one occurs. -/
def afterSchemeSep : List Char → Option (List Char)
  | [] => none
  | c1 :: rest =>
    match rest with
    | c2 :: c3 :: t =>
      if c1 = Char.ofNat 58 && c2 = Char.ofNat 47 && c3 = Char.ofNat 47 then some t
      else afterSchemeSep rest
    | _ => none

/-- The string form of a pydantic v2 `HttpUrl` built from input `s`
(external library, modelled for well-formed http(s) inputs): pydantic v2
normalizes a URL whose authority is followed by no path to end in `"/"`, so
`str(HttpUrl("https://example.com"))` is `"https://example.com/"`, while an
input that already has a path component is kept. -/
def pydanticStr (s : String) : String :=
  match afterSchemeSep s.data with
  | some rest => if rest.contains (Char.ofNat 47) then s else s ++ "/"
  | none => s

/-- Embedding of the relative-link resolution (scraper.py lines 228-229):
a link that does not start with `"http"` gets `f"{base_url}{link}"`
prepended, i.e. string concatenation with `str(base_url)`. -/
def resolveLink (base : String) (l : String) : String :=
  if prefixOfList "http".data l.data then l else base ++ l

/-- Embedding of the date-string extraction of one card (scraper.py lines
256-270), given the already-resolved `link` of the card.  With a configured
`date_selector`: use the card's date node, and when the card has none,
fetch the article page itself (`self.get_soup(link)`, line 264 — this call
is not wrapped in any try/except, so a fetch failure propagates) and
re-apply the selector there; if that page also lacks the node, line 267
calls `.get` on `None` and raises `AttributeError`.  Without a
`date_selector`: read the attribute directly off the card node. -/
def extractDateStr (env : Env) (cfg : SiteConfig) (card : Card)
    (link : String) : Except String (Option String) :=
  match cfg.date_selector with
  | some ds =>
    match card.selectOne ds with
    | some de => .ok (de.get cfg.date_attribute)
    | none =>
      match get_soup env link with
      | .error m => .error m
      | .ok time_soup =>
        match time_soup.selectOne ds with
        | some de => .ok (de.get cfg.date_attribute)
        | none => .error "AttributeError"
  | none => .ok (card.get cfg.date_attribute)

/-- Embedding of the summary extraction of one card (scraper.py lines
250-254). -/
def extractSummary (cfg : SiteConfig) (card : Card) : String :=
  match cfg.summary_selector with
  | some ss =>
    match card.selectOne ss with
    | some se => pyStrip se.text
    | none => ""
  | none => ""

/-- Embedding of one iteration of the card loop of `scrape_site`
(scraper.py lines 215-283).  The state is the pair
(`unique_links`, `articles`); `unique_links` is the Python set, modelled as
the list of its elements (only membership and insertion are used).  The
branch order is the source's: missing link element → skip; missing or empty
(falsy) `href` → skip; relative-link resolution; duplicate resolved link →
skip; the membership test `keyword not in link`, which raises `TypeError`
when `keyword` is `None`; add the link to the seen set; missing title →
skip (after the link was already marked seen); then summary, date string,
`parse_date`, and the validated `NewsArticle` construction, each of whose
exceptions propagates out of the loop. -/
def processCard (env : Env) (cfg : SiteConfig)
    (st : List String × List NewsArticle) (card : Card) :
    Except String (List String × List NewsArticle) :=
  match card.selectOne cfg.link_selector with
  | none => .ok st
  | some link_elem =>
    match link_elem.get "href" with
    | none => .ok st
    | some l =>
      if l = "" then .ok st
      else
        let link := resolveLink cfg.base_url l
        if link ∈ st.1 then .ok st
        else
          match cfg.keyword with
          | none => .error "TypeError"
          | some kw =>
            if strContains link kw then
              let seen := link :: st.1
              match card.selectOne cfg.title_selector with
              | none => .ok (seen, st.2)
              | some title_elem =>
                let title := pyStrip title_elem.text
                let summary := extractSummary cfg card
                match extractDateStr env cfg card link with
                | .error m => .error m
                | .ok date_str =>
                  match parse_date env date_str with
                  | .error m => .error m
                  | .ok pub =>
                    match mkNewsArticle env cfg.base_host title link pub summary with
                    | .error m => .error m
                    | .ok a => .ok (seen, st.2 ++ [a])
            else .ok st

/-- The card loop of `scrape_site` over the flattened document-order card
list, threading the (`unique_links`, `articles`) state; any exception
raised while processing a card aborts the whole loop (there is no
try/except inside `scrape_site`). -/
def processCards (env : Env) (cfg : SiteConfig) :
    List Card → List String × List NewsArticle →
    Except String (List String × List NewsArticle)
  | [], st => .ok st
  | c :: cs, st =>
    match processCard env cfg st c with
    | .error m => .error m
    | .ok st2 => processCards env cfg cs st2

/-- Embedding of `NewsScraper.scrape_site` (scraper.py lines 185-289):
resolve the landing URL (`news_url` when present, else `base_url`), fetch
and parse it (a failure propagates), select the sections and each section's
cards in document order, and run the card loop from the empty seen set and
empty article list, returning the accumulated articles. -/
def scrape_site (env : Env) (cfg : SiteConfig) : Except String (List NewsArticle) :=
  let news_url := cfg.news_url.getD cfg.base_url
  match get_soup env news_url with
  | .error m => .error m
  | .ok soup =>
    let sections := soup.select cfg.section_selector
    let cards := (sections.map (fun s => s.select cfg.card_selector)).flatten
    match processCards env cfg cards ([], []) with
    | .error m => .error m
    | .ok st => .ok st.2

/-- Embedding of `NewsScraper.scrape_all_sites` (scraper.py lines 291-305):
for each configuration run `scrape_site` under `try/except Exception`; a
site whose scrape raises contributes nothing to the aggregate and the loop
continues; the aggregate is the concatenation of the successful sites'
article lists, in configuration order. -/
def scrape_all_sites (env : Env) (configs : List SiteConfig) : List NewsArticle :=
  configs.foldl
    (fun acc cfg =>
      match scrape_site env cfg with
      | .ok arts => acc ++ arts
      | .error _ => acc)
    []

/-! ### Concrete test fixtures

Small closed instances of the embedding, used to witness the theorems below
on concrete runs.  Each fixture mirrors a minimal HTML landing page through
the selector interface. -/

/-- A parsed page with no sections and no matching nodes (what BeautifulSoup
yields for a body with no matches). -/
def emptySoup : Soup :=
  { select := fun _ => [], selectOne := fun _ => none }

/-- The link element of the fixture card: an anchor with `href "article/1"`. -/
def elemLinkB : Elem :=
  { get := fun a => if a = "href" then some "article/1" else none, text := "" }

/-- The title element of the fixture card, with padded text. -/
def elemTitleB : Elem :=
  { get := fun _ => none, text := "  Story One  " }

/-- A fixture card with a link, a title, and a millisecond-epoch date
attribute directly on the card node. -/
def cardB : Card :=
  { selectOne := fun s =>
      if s = "a" then some elemLinkB
      else if s = "h2" then some elemTitleB
      else none,
    get := fun a => if a = "datetime" then some "1700000000000" else none }

/-- A fixture section holding the single card `cardB`. -/
def sectB : Sect :=
  { select := fun s => if s = "card" then [cardB] else [] }

/-- The parsed landing page of site B: one section, one card. -/
def soupB : Soup :=
  { select := fun s => if s = "sec" then [sectB] else [],
    selectOne := fun _ => none }

/-- Configuration of fixture site A (its landing fetch will fail). -/
def cfgA : SiteConfig :=
  { base_url := "https://a.example/", base_host := "a.example",
    news_url := none,
    section_selector := "sec", card_selector := "card",
    title_selector := "h2", link_selector := "a",
    keyword := some "article", summary_selector := none,
    date_selector := none, date_attribute := "datetime" }

/-- Configuration of fixture site B (its landing fetch succeeds). -/
def cfgB : SiteConfig :=
  { base_url := "https://b.example/", base_host := "b.example",
    news_url := none,
    section_selector := "sec", card_selector := "card",
    title_selector := "h2", link_selector := "a",
    keyword := some "article", summary_selector := none,
    date_selector := none, date_attribute := "datetime" }

/-- Environment for the orchestrator-isolation run: requesting site A's
landing page raises a transport error, site B's landing page parses to
`soupB`, every URL validates. -/
def envC1 : Env :=
  { net := fun u =>
      if u = "https://a.example/" then .exn "ConnectionError"
      else .resp 200 "pageB",
    parseHtml := fun h => if h = "pageB" then soupB else emptySoup,
    dateutil := fun _ => none,
    today := { year := 2026, month := 10, day := 12 },
    validUrl := fun _ => true }

/-- The one article fixture site B produces: epoch-millisecond attribute
`1700000000000` is 2023-11-14 UTC, the title is trimmed, and the relative
link `article/1` is resolved against `str(base_url)`. -/
def artB : NewsArticle :=
  { site_name := "b.example", title := "Story One",
    url := "https://b.example/article/1",
    published_date := { year := 2023, month := 11, day := 14 },
    summary := "" }

/-! ### C1: orchestrator isolation -/

/-- C1: for configurations `[A, B]` where A's landing-page fetch fails (so
`scrape_site` on A raises) and B's scrape succeeds with articles `arts`,
`scrape_all_sites` raises nothing (it is a total function of the embedding,
mirroring the `except Exception` at scraper.py lines 301-303) and returns
exactly B's articles: the aggregate contains every article B produces and A
contributes nothing, so no single site's failure reduces or aborts any
other site's results. -/
theorem scrape_all_sites_isolation (env : Env) (A B : SiteConfig) (e : String)
    (arts : List NewsArticle)
    (hA : get_soup env (A.news_url.getD A.base_url) = .error e)
    (hB : scrape_site env B = .ok arts) :
    scrape_all_sites env [A, B] = arts := by
  have hA2 : scrape_site env A = .error e := by
    simp only [scrape_site]
    rw [hA]
  simp [scrape_all_sites, hA2, hB]

/-- Witness for C1 at the concrete fixture: site A's landing fetch raises
`ConnectionError`, site B yields `[artB]`, and the aggregate is `[artB]`. -/
theorem scrape_all_sites_isolation_witness :
    get_soup envC1 (cfgA.news_url.getD cfgA.base_url) = Except.error "ConnectionError"
    ∧ scrape_site envC1 cfgB = Except.ok [artB]
    ∧ scrape_all_sites envC1 [cfgA, cfgB] = [artB] :=
  ⟨rfl, rfl,
   scrape_all_sites_isolation envC1 cfgA cfgB "ConnectionError" [artB] rfl rfl⟩

/-! ### C2: fetch behavior on non-success status -/

/-- Environment in which every request yields HTTP status 404 with a
non-empty body. -/
def envC2 : Env :=
  { net := fun _ => .resp 404 "<html>not found</html>",
    parseHtml := fun _ => emptySoup,
    dateutil := fun _ => none,
    today := { year := 2026, month := 10, day := 12 },
    validUrl := fun _ => true }

/-- C2 (evaluation at the failing input): the fetch does NOT fail on a
non-success HTTP status — for a request answered with status 404,
`get_page_html` logs and then still returns the response body (scraper.py
lines 137-142), contradicting the claim that it fails with `FetchError` and
never returns page content for a non-success response (and contradicting
its own docstring, which promises an empty string on failure). -/
theorem get_page_html_returns_body_on_404 :
    envC2.net "https://a.example/news" = HttpResult.resp 404 "<html>not found</html>"
    ∧ get_page_html envC2 "https://a.example/news" = Except.ok "<html>not found</html>" :=
  ⟨rfl, rfl⟩

/-! ### The per-site state invariant of the card loop -/

/-- A successful `NewsArticle` construction yields an article carrying
exactly the candidate URL, and that URL passed pydantic validation. -/
theorem mkNewsArticle_ok {env : Env} {sn t u : String} {p : Date} {s : String}
    {a : NewsArticle} (h : mkNewsArticle env sn t u p s = .ok a) :
    a.url = u ∧ env.validUrl u = true := by
  unfold mkNewsArticle at h
  split at h
  · cases h
    exact ⟨rfl, by assumption⟩
  · cases h

/-- Case analysis of one card-loop iteration: a non-raising iteration either
leaves the state unchanged (a soft skip before the seen set is touched),
adds the resolved link to the seen set without an article (the
missing-title skip), or adds the resolved link together with exactly one
article whose `url` is that link and passed validation. -/
theorem processCard_ok_cases {env : Env} {cfg : SiteConfig}
    {st st' : List String × List NewsArticle} {card : Card}
    (h : processCard env cfg st card = .ok st') :
    st' = st
    ∨ (∃ link, link ∉ st.1 ∧ st' = (link :: st.1, st.2))
    ∨ (∃ link a, link ∉ st.1 ∧ a.url = link ∧ env.validUrl link = true
        ∧ st' = (link :: st.1, st.2 ++ [a])) := by
  simp only [processCard] at h
  split at h
  · exact Or.inl (Except.ok.inj h).symm
  split at h
  · exact Or.inl (Except.ok.inj h).symm
  split at h
  · exact Or.inl (Except.ok.inj h).symm
  split at h
  · exact Or.inl (Except.ok.inj h).symm
  next hnotin =>
  split at h
  · cases h
  next kw _ =>
  split at h
  · split at h
    · exact Or.inr (Or.inl ⟨_, hnotin, (Except.ok.inj h).symm⟩)
    next title_elem _ =>
    split at h
    · cases h
    next ds hds =>
    split at h
    · cases h
    next pub hpub =>
    split at h
    · cases h
    next a hmk =>
    have := mkNewsArticle_ok hmk
    exact Or.inr (Or.inr ⟨_, a, hnotin, this.1, this.2, (Except.ok.inj h).symm⟩)
  · exact Or.inl (Except.ok.inj h).symm

/-- The loop invariant of `scrape_site`: every accumulated article's URL is
in the seen set and passed validation, and the accumulated URLs are
pairwise distinct. -/
def StInv (env : Env) (st : List String × List NewsArticle) : Prop :=
  (∀ a ∈ st.2, a.url ∈ st.1 ∧ env.validUrl a.url = true)
  ∧ (st.2.map NewsArticle.url).Nodup

/-- One non-raising card-loop iteration preserves the state invariant. -/
theorem processCard_inv {env : Env} {cfg : SiteConfig}
    {st st' : List String × List NewsArticle} {card : Card}
    (hinv : StInv env st) (h : processCard env cfg st card = .ok st') :
    StInv env st' := by
  rcases processCard_ok_cases h with heq | ⟨link, hnotin, heq⟩ |
    ⟨link, a, hnotin, hurl, hvalid, heq⟩
  · exact heq ▸ hinv
  · subst heq
    exact ⟨fun a ha => ⟨List.mem_cons_of_mem _ (hinv.1 a ha).1, (hinv.1 a ha).2⟩,
      hinv.2⟩
  · subst heq
    refine ⟨?_, ?_⟩
    · intro b hb
      rcases List.mem_append.1 hb with hb | hb
      · exact ⟨List.mem_cons_of_mem _ (hinv.1 b hb).1, (hinv.1 b hb).2⟩
      · rcases List.mem_singleton.1 hb with rfl
        exact ⟨hurl ▸ List.mem_cons_self _ _, hurl ▸ hvalid⟩
    · have hnotmap : link ∉ st.2.map NewsArticle.url := by
        intro hmem
        rcases List.mem_map.1 hmem with ⟨b, hb, hbu⟩
        exact hnotin (hbu ▸ (hinv.1 b hb).1)
      simp [List.nodup_append, hinv.2, hurl, hnotmap]

/-- The whole card loop preserves the state invariant. -/
theorem processCards_inv {env : Env} {cfg : SiteConfig} {cards : List Card}
    {st st' : List String × List NewsArticle}
    (hinv : StInv env st) (h : processCards env cfg cards st = .ok st') :
    StInv env st' := by
  induction cards generalizing st with
  | nil =>
    simp only [processCards] at h
    exact (Except.ok.inj h) ▸ hinv
  | cons c cs ih =>
    simp only [processCards] at h
    split at h
    · cases h
    · exact ih (processCard_inv hinv (by assumption)) h

/-- A successful site scrape satisfies the invariant on its result: the
returned articles carry pairwise distinct resolved URLs, each of which
passed pydantic validation. -/
theorem scrape_site_ok_invariant {env : Env} {cfg : SiteConfig}
    {arts : List NewsArticle} (h : scrape_site env cfg = .ok arts) :
    (arts.map NewsArticle.url).Nodup
    ∧ ∀ a ∈ arts, env.validUrl a.url = true := by
  simp only [scrape_site] at h
  split at h
  · cases h
  split at h
  · cases h
  next st hst =>
  have hinv : StInv env st :=
    processCards_inv (by simp [StInv]) hst
  cases h
  exact ⟨hinv.2, fun a ha => (hinv.1 a ha).2⟩

/-! ### C3: per-site dedup of resolved URLs -/

/-- A card whose link resolves to `"https://c3.example//a1"` but that has no
title node. -/
def cardC3a : Card :=
  { selectOne := fun s =>
      if s = "a" then
        some { get := fun a => if a = "href" then some "/a1" else none, text := "" }
      else none,
    get := fun a => if a = "datetime" then some "1700000000000" else none }

/-- A card whose link resolves to the same URL as `cardC3a` and that does
have a title node. -/
def cardC3b : Card :=
  { selectOne := fun s =>
      if s = "a" then
        some { get := fun a => if a = "href" then some "/a1" else none, text := "" }
      else if s = "h2" then some { get := fun _ => none, text := "Second Story" }
      else none,
    get := fun a => if a = "datetime" then some "1700000000000" else none }

/-- Fixture configuration for site C3. -/
def cfgC3 : SiteConfig :=
  { base_url := "https://c3.example/", base_host := "c3.example",
    news_url := none,
    section_selector := "sec", card_selector := "card",
    title_selector := "h2", link_selector := "a",
    keyword := some "a1", summary_selector := none,
    date_selector := none, date_attribute := "datetime" }

/-- Environment whose landing page holds one section with the two duplicate
cards, titleless first. -/
def envC3 : Env :=
  { net := fun _ => .resp 200 "page",
    parseHtml := fun _ =>
      { select := fun s =>
          if s = "sec" then
            [{ select := fun t => if t = "card" then [cardC3a, cardC3b] else [] }]
          else [],
        selectOne := fun _ => none },
    dateutil := fun _ => none,
    today := { year := 2026, month := 10, day := 12 },
    validUrl := fun _ => true }

/-- Environment identical to `envC3` except that the landing page holds only
the titled card `cardC3b`. -/
def envC3b : Env :=
  { net := fun _ => .resp 200 "page",
    parseHtml := fun _ =>
      { select := fun s =>
          if s = "sec" then
            [{ select := fun t => if t = "card" then [cardC3b] else [] }]
          else [],
        selectOne := fun _ => none },
    dateutil := fun _ => none,
    today := { year := 2026, month := 10, day := 12 },
    validUrl := fun _ => true }

/-- The article the titled card produces when it is alone on the page. -/
def artC3 : NewsArticle :=
  { site_name := "c3.example", title := "Second Story",
    url := "https://c3.example//a1",
    published_date := { year := 2023, month := 11, day := 14 },
    summary := "" }

/-- C3 counterexample: a site run whose two cards resolve to the identical
absolute URL can produce ZERO articles with that URL, not exactly one.  The
first card passes the keyword filter, is marked seen, and is then skipped
for lacking a title; the second card, which alone would produce `artC3`
(second conjunct), is soft-skipped as a duplicate.  So "exactly one Article
with that URL" fails; only "at most one" holds. -/
theorem scrape_site_duplicate_can_yield_zero :
    scrape_site envC3 cfgC3 = Except.ok []
    ∧ scrape_site envC3b cfgC3 = Except.ok [artC3]
    ∧ artC3.url = resolveLink cfgC3.base_url "/a1" :=
  ⟨rfl, rfl, rfl⟩

/-- C3 as amended: in every site run that returns normally, the resolved
URLs of the returned articles are pairwise distinct — at most one Article
per resolved absolute URL, every repeat of an already-seen resolved URL
being soft-skipped (the repeat-skip is the `link ∈ unique_links` branch of
the embedding, scraper.py lines 233-235). -/
theorem scrape_site_urls_nodup (env : Env) (cfg : SiteConfig)
    (arts : List NewsArticle) (h : scrape_site env cfg = .ok arts) :
    (arts.map NewsArticle.url).Nodup :=
  (scrape_site_ok_invariant h).1

/-- Witness for the amended C3 on a concrete run that returns one article. -/
theorem scrape_site_urls_nodup_witness :
    scrape_site envC3b cfgC3 = Except.ok [artC3]
    ∧ ([artC3].map NewsArticle.url).Nodup :=
  ⟨rfl, scrape_site_urls_nodup envC3b cfgC3 [artC3] rfl⟩

/-! ### C4: relative-link resolution -/

/-- C4 counterexample: the spec's instance does not resolve to
`"https://example.com/news/articles/123"`.  The code concatenates with
`f"{base_url}{link}"`, and `base_url` is the pydantic v2 `HttpUrl`, whose
string form of the input `"https://example.com"` carries a normalized
trailing slash — so the resolved URL has a doubled slash. -/
theorem resolveLink_instance_double_slash :
    pydanticStr "https://example.com" = "https://example.com/"
    ∧ resolveLink (pydanticStr "https://example.com") "/news/articles/123"
        = "https://example.com//news/articles/123"
    ∧ resolveLink (pydanticStr "https://example.com") "/news/articles/123"
        ≠ "https://example.com/news/articles/123" := by
  refine ⟨rfl, rfl, ?_⟩
  decide

/-- C4 as amended: a link that does not start with `"http"` (the code's
test, scraper.py line 228, standing in for "lacks a scheme") is resolved by
prepending `str(base_url)`; in particular `"/news/articles/123"` combined
with `base_url = "https://example.com"` (whose pydantic v2 string form is
`"https://example.com/"`) resolves to
`"https://example.com//news/articles/123"`, with a doubled slash. -/
theorem resolveLink_prepends_base (b l : String)
    (h : prefixOfList "http".data l.data = false) :
    resolveLink b l = b ++ l
    ∧ resolveLink (pydanticStr "https://example.com") "/news/articles/123"
        = "https://example.com//news/articles/123" := by
  refine ⟨?_, rfl⟩
  simp [resolveLink, h]

/-- Witness for the amended C4 at the spec's instance. -/
theorem resolveLink_prepends_base_witness :
    resolveLink "https://example.com/" "/news/articles/123"
      = "https://example.com/" ++ "/news/articles/123" :=
  (resolveLink_prepends_base "https://example.com/" "/news/articles/123"
    (by decide)).1

/-! ### C5: date normalization -/

/-- Environment fixing the documented behavior of the external `dateutil`
parser on the two non-digit inputs of the claim. -/
def envC5 : Env :=
  { net := fun _ => .resp 200 "",
    parseHtml := fun _ => emptySoup,
    dateutil := fun s =>
      if s = "2024-05-01T00:00:00Z" then some { year := 2024, month := 5, day := 1 }
      else none,
    today := { year := 2026, month := 10, day := 12 },
    validUrl := fun _ => true }

/-- C5: for any environment in which `dateutil` parses the ISO instant to
2024-05-01 and rejects `"not-a-date"` (its documented behavior), the
embedded `parse_date` (i) interprets the all-digit `"1700000000000"` as an
epoch-millisecond UTC timestamp, giving its UTC calendar date 2023-11-14,
(ii) parses the ISO instant to 2024-05-01, and (iii) maps `"not-a-date"`
to the current date without raising. -/
theorem parse_date_normalization (env : Env)
    (hiso : env.dateutil "2024-05-01T00:00:00Z"
      = some { year := 2024, month := 5, day := 1 })
    (hbad : env.dateutil "not-a-date" = none) :
    parse_date env (some "1700000000000")
      = .ok { year := 2023, month := 11, day := 14 }
    ∧ parse_date env (some "2024-05-01T00:00:00Z")
      = .ok { year := 2024, month := 5, day := 1 }
    ∧ parse_date env (some "not-a-date") = .ok env.today := by
  have hd1 : isDigitString "2024-05-01T00:00:00Z" = false := by decide
  have hd2 : isDigitString "not-a-date" = false := by decide
  refine ⟨rfl, ?_, ?_⟩
  · simp [parse_date, hd1, hiso]
  · simp [parse_date, hd2, hbad]

/-- Witness for C5 in the concrete environment `envC5`. -/
theorem parse_date_normalization_witness :
    parse_date envC5 (some "1700000000000")
      = Except.ok { year := 2023, month := 11, day := 14 }
    ∧ parse_date envC5 (some "2024-05-01T00:00:00Z")
      = Except.ok { year := 2024, month := 5, day := 1 }
    ∧ parse_date envC5 (some "not-a-date") = Except.ok envC5.today :=
  parse_date_normalization envC5 rfl rfl

/-! ### C6: date fallback on absent input -/

/-- A card with a link and a title but WITHOUT the configured date
attribute on the card node (and no `date_selector` is configured, so the
attribute is read directly off the card, scraper.py line 270). -/
def cardC6 : Card :=
  { selectOne := fun s =>
      if s = "a" then
        some { get := fun a => if a = "href" then some "art/9" else none, text := "" }
      else if s = "h2" then some { get := fun _ => none, text := "Headline" }
      else none,
    get := fun _ => none }

/-- Fixture configuration for site C6: no `date_selector`, date attribute
`"datetime"`. -/
def cfgC6 : SiteConfig :=
  { base_url := "https://c6.example/", base_host := "c6.example",
    news_url := none,
    section_selector := "sec", card_selector := "card",
    title_selector := "h2", link_selector := "a",
    keyword := some "art", summary_selector := none,
    date_selector := none, date_attribute := "datetime" }

/-- Environment whose landing page holds the single card `cardC6`. -/
def envC6 : Env :=
  { net := fun _ => .resp 200 "page",
    parseHtml := fun _ =>
      { select := fun s =>
          if s = "sec" then
            [{ select := fun t => if t = "card" then [cardC6] else [] }]
          else [],
        selectOne := fun _ => none },
    dateutil := fun _ => none,
    today := { year := 2026, month := 10, day := 12 },
    validUrl := fun _ => true }

/-- C6 at the failing input: when the card node lacks the configured date
attribute, `card.get("datetime")` is `None`, and `parse_date(None)` hits
`None.isdigit()` — an `AttributeError` that the `except ValueError` clause
(scraper.py line 181) does not catch.  The error escapes `scrape_site`
(aborting the whole site) instead of falling back to the current date, so
the claim's "never raises an error outward" is what the code's own
soft-fallback design intends but fails to deliver on absent input. -/
theorem parse_date_none_raises :
    cardC6.get "datetime" = none
    ∧ parse_date envC6 none = Except.error "AttributeError"
    ∧ scrape_site envC6 cfgC6 = Except.error "AttributeError" :=
  ⟨rfl, rfl, rfl⟩

/-! ### C7: article validation -/

/-- A card whose title node's text is whitespace only (so it trims to the
empty string) and that carries a valid link and a date attribute. -/
def cardC7 : Card :=
  { selectOne := fun s =>
      if s = "a" then
        some { get := fun a => if a = "href" then some "art/7" else none, text := "" }
      else if s = "h2" then some { get := fun _ => none, text := "   " }
      else none,
    get := fun a => if a = "datetime" then some "1700000000000" else none }

/-- Fixture configuration for site C7. -/
def cfgC7 : SiteConfig :=
  { base_url := "https://c7.example/", base_host := "c7.example",
    news_url := none,
    section_selector := "sec", card_selector := "card",
    title_selector := "h2", link_selector := "a",
    keyword := some "art", summary_selector := none,
    date_selector := none, date_attribute := "datetime" }

/-- Environment whose landing page holds the single card `cardC7`. -/
def envC7 : Env :=
  { net := fun _ => .resp 200 "page",
    parseHtml := fun _ =>
      { select := fun s =>
          if s = "sec" then
            [{ select := fun t => if t = "card" then [cardC7] else [] }]
          else [],
        selectOne := fun _ => none },
    dateutil := fun _ => none,
    today := { year := 2026, month := 10, day := 12 },
    validUrl := fun _ => true }

/-- The article the whitespace-titled card produces: its title is empty
after trimming, yet it is returned. -/
def artC7 : NewsArticle :=
  { site_name := "c7.example", title := "",
    url := "https://c7.example/art/7",
    published_date := { year := 2023, month := 11, day := 14 },
    summary := "" }

/-- C7 counterexample: `scrape_site` returns an Article whose title IS
empty after trimming — the pydantic model has no non-empty constraint on
`title` (scraper.py line 29), so such a candidate is neither dropped nor
rejected; the claim that every returned Article has a non-empty trimmed
title fails. -/
theorem scrape_site_returns_empty_title :
    scrape_site envC7 cfgC7 = Except.ok [artC7]
    ∧ artC7.title = "" :=
  ⟨rfl, rfl⟩

/-- C7 as amended: every Article in a normally-returned result has a URL
that passed the pydantic `HttpUrl` validation performed at construction —
but an invalid candidate is not "dropped": `mkNewsArticle` raises
`ValidationError` and no handler inside `scrape_site` catches it, so such a
candidate aborts the whole site's scrape; and no non-empty-title constraint
exists, an empty trimmed title being returned as an ordinary Article. -/
theorem scrape_site_urls_validated (env : Env) (cfg : SiteConfig)
    (arts : List NewsArticle) (h : scrape_site env cfg = .ok arts) :
    ∀ a ∈ arts, env.validUrl a.url = true :=
  (scrape_site_ok_invariant h).2

/-- Witness for the amended C7 on a concrete run. -/
theorem scrape_site_urls_validated_witness :
    scrape_site envC7 cfgC7 = Except.ok [artC7]
    ∧ envC7.validUrl artC7.url = true :=
  ⟨rfl, scrape_site_urls_validated envC7 cfgC7 [artC7] rfl artC7 (by simp)⟩

/-! ### C8: the one-level date fallback fetch -/

/-- A card with a link and a title but no node matching the configured
`date_selector`, so the date fallback fetch of the article page fires. -/
def cardC8 : Card :=
  { selectOne := fun s =>
      if s = "a" then
        some { get := fun a => if a = "href" then some "art/8" else none, text := "" }
      else if s = "h2" then some { get := fun _ => none, text := "Fallback Story" }
      else none,
    get := fun _ => none }

/-- Fixture configuration for site C8, with a configured `date_selector`. -/
def cfgC8 : SiteConfig :=
  { base_url := "https://c8.example/", base_host := "c8.example",
    news_url := none,
    section_selector := "sec", card_selector := "card",
    title_selector := "h2", link_selector := "a",
    keyword := some "art", summary_selector := none,
    date_selector := some "time", date_attribute := "datetime" }

/-- Environment for C8: the landing page fetch succeeds and yields the one
card `cardC8`; fetching the resolved article URL
`"https://c8.example/art/8"` raises a transport error. -/
def envC8 : Env :=
  { net := fun u =>
      if u = "https://c8.example/art/8" then .exn "ConnectionError"
      else .resp 200 "landing",
    parseHtml := fun h =>
      if h = "landing" then
        { select := fun s =>
            if s = "sec" then
              [{ select := fun t => if t = "card" then [cardC8] else [] }]
            else [],
          selectOne := fun _ => none }
      else emptySoup,
    dateutil := fun _ => none,
    today := { year := 2026, month := 10, day := 12 },
    validUrl := fun _ => true }

/-- C8 counterexample: the card lacks a date node, the one fallback fetch
of the article page is issued and fails — and the failure is NOT handled
locally: there is no try/except around `self.get_soup(link)` (scraper.py
line 264), so the exception aborts the whole site's scrape instead of
leaving the published date at the current-date fallback. -/
theorem scrape_site_date_fallback_failure_aborts :
    cardC8.selectOne "time" = none
    ∧ envC8.net "https://c8.example/art/8" = HttpResult.exn "ConnectionError"
    ∧ scrape_site envC8 cfgC8 = Except.error "ConnectionError" :=
  ⟨rfl, rfl, rfl⟩

/-- C8 as amended: when `date_selector` is configured and the card lacks a
matching date node, exactly one fallback fetch of the article page is
issued, and the outcome is decided by that single fetch: a fetch failure
propagates as that very error (not handled locally, no current-date
fallback), an article page that also lacks the date node raises
`AttributeError` (the `.get` on `None` at scraper.py line 267), and only a
found node lets processing continue with that node's attribute. -/
theorem extractDateStr_fallback (env : Env) (cfg : SiteConfig) (card : Card)
    (link ds : String)
    (hds : cfg.date_selector = some ds)
    (hnone : card.selectOne ds = none) :
    (∀ m, get_soup env link = .error m →
      extractDateStr env cfg card link = .error m)
    ∧ (∀ ts, get_soup env link = .ok ts → ts.selectOne ds = none →
      extractDateStr env cfg card link = .error "AttributeError")
    ∧ (∀ ts de, get_soup env link = .ok ts → ts.selectOne ds = some de →
      extractDateStr env cfg card link = .ok (de.get cfg.date_attribute)) := by
  refine ⟨?_, ?_, ?_⟩
  · intro m hm
    simp [extractDateStr, hds, hnone, hm]
  · intro ts hts hsel
    simp [extractDateStr, hds, hnone, hts, hsel]
  · intro ts de hts hsel
    simp [extractDateStr, hds, hnone, hts, hsel]

/-- Witness for the amended C8: at the concrete fixture the fallback fetch
fails and the date extraction yields exactly that error. -/
theorem extractDateStr_fallback_witness :
    extractDateStr envC8 cfgC8 cardC8 "https://c8.example/art/8"
      = Except.error "ConnectionError" :=
  (extractDateStr_fallback envC8 cfgC8 cardC8 "https://c8.example/art/8" "time"
    rfl rfl).1 "ConnectionError" rfl

/-! ### C9: the seen set is updated before the title check -/

/-- C9: in a single site run, a card whose link passes the dedup and
keyword checks has its resolved URL added to the seen set BEFORE the title
check (scraper.py line 241 precedes lines 244-247): a titleless first card
marks the URL seen and produces nothing, and a later card resolving to the
same URL — whatever its title — is then dropped by the dedup branch, so the
run yields zero Articles for that URL. -/
theorem seen_marked_before_title_check (env : Env) (cfg : SiteConfig)
    (seen : List String) (arts : List NewsArticle)
    (card1 card2 : Card) (e1 e2 : Elem) (l1 l2 kw : String)
    (h1l : card1.selectOne cfg.link_selector = some e1)
    (h1h : e1.get "href" = some l1) (h1ne : ¬ l1 = "")
    (hdup : resolveLink cfg.base_url l1 ∉ seen)
    (hkw : cfg.keyword = some kw)
    (hc : strContains (resolveLink cfg.base_url l1) kw = true)
    (h1t : card1.selectOne cfg.title_selector = none)
    (h2l : card2.selectOne cfg.link_selector = some e2)
    (h2h : e2.get "href" = some l2) (h2ne : ¬ l2 = "")
    (hsame : resolveLink cfg.base_url l2 = resolveLink cfg.base_url l1) :
    processCards env cfg [card1, card2] (seen, arts)
      = .ok (resolveLink cfg.base_url l1 :: seen, arts) := by
  have hstep1 : processCard env cfg (seen, arts) card1
      = .ok (resolveLink cfg.base_url l1 :: seen, arts) := by
    simp [processCard, h1l, h1h, h1ne, hdup, hkw, hc, h1t]
  have hstep2 : processCard env cfg (resolveLink cfg.base_url l1 :: seen, arts) card2
      = .ok (resolveLink cfg.base_url l1 :: seen, arts) := by
    simp [processCard, h2l, h2h, h2ne, hsame]
  simp [processCards, hstep1, hstep2]

/-- The shared link element of the C9 fixture cards. -/
def elemC9 : Elem :=
  { get := fun a => if a = "href" then some "/a1" else none, text := "" }

/-- A titleless C9 card. -/
def cardC9a : Card :=
  { selectOne := fun s => if s = "a" then some elemC9 else none,
    get := fun _ => none }

/-- A titled C9 card resolving to the same URL as `cardC9a`. -/
def cardC9b : Card :=
  { selectOne := fun s =>
      if s = "a" then some elemC9
      else if s = "h2" then some { get := fun _ => none, text := "Second Story" }
      else none,
    get := fun _ => none }

/-- Fixture configuration for site C9. -/
def cfgC9 : SiteConfig :=
  { base_url := "https://c9.example/", base_host := "c9.example",
    news_url := none,
    section_selector := "sec", card_selector := "card",
    title_selector := "h2", link_selector := "a",
    keyword := some "a1", summary_selector := none,
    date_selector := none, date_attribute := "datetime" }

/-- A trivial environment for the C9 witness (the card loop issues no
fetch on this path). -/
def envC9 : Env :=
  { net := fun _ => .resp 200 "",
    parseHtml := fun _ => emptySoup,
    dateutil := fun _ => none,
    today := { year := 2026, month := 10, day := 12 },
    validUrl := fun _ => true }

/-- Witness for C9: concretely, the titleless card followed by a card with
a perfectly valid title yields no article at all for their shared resolved
URL, which ends up marked seen. -/
theorem seen_marked_before_title_check_witness :
    cardC9b.selectOne cfgC9.title_selector
      = some { get := fun _ => none, text := "Second Story" }
    ∧ processCards envC9 cfgC9 [cardC9a, cardC9b] ([], [])
      = Except.ok (["https://c9.example//a1"], []) :=
  ⟨rfl,
   seen_marked_before_title_check envC9 cfgC9 [] [] cardC9a cardC9b
     elemC9 elemC9 "/a1" "/a1" "a1" rfl rfl (by decide) (by simp) rfl
     (by decide) rfl rfl rfl (by decide) rfl⟩

/-! ### C10: the keyword filter with an absent keyword -/

/-- Fixture configuration for site C10: `keyword` is absent (`None`). -/
def cfgC10 : SiteConfig :=
  { base_url := "https://c10.example/", base_host := "c10.example",
    news_url := none,
    section_selector := "sec", card_selector := "card",
    title_selector := "h2", link_selector := "a",
    keyword := none, summary_selector := none,
    date_selector := none, date_attribute := "datetime" }

/-- The C10 fixture card, with a link and a title. -/
def cardC10 : Card :=
  { selectOne := fun s =>
      if s = "a" then
        some { get := fun a => if a = "href" then some "n/1" else none, text := "" }
      else if s = "h2" then some { get := fun _ => none, text := "Tenth" }
      else none,
    get := fun a => if a = "datetime" then some "1700000000000" else none }

/-- Environment whose landing page holds the single card `cardC10`. -/
def envC10 : Env :=
  { net := fun _ => .resp 200 "page",
    parseHtml := fun _ =>
      { select := fun s =>
          if s = "sec" then
            [{ select := fun t => if t = "card" then [cardC10] else [] }]
          else [],
        selectOne := fun _ => none },
    dateutil := fun _ => none,
    today := { year := 2026, month := 10, day := 12 },
    validUrl := fun _ => true }

/-- C10: with `keyword = None` the membership test `keyword not in link`
(scraper.py line 237) is executed unconditionally, and `None` on the left
of `in` over a string raises `TypeError`; so processing the first card
that yields a resolved link raises, and the branch is reachable at the
public interface: the fixture site's whole scrape ends in that
`TypeError`. -/
theorem keyword_none_raises_type_error (env : Env) (cfg : SiteConfig)
    (st : List String × List NewsArticle) (card : Card) (e : Elem) (l : String)
    (hkw : cfg.keyword = none)
    (hl : card.selectOne cfg.link_selector = some e)
    (hh : e.get "href" = some l) (hne : ¬ l = "")
    (hdup : resolveLink cfg.base_url l ∉ st.1) :
    processCard env cfg st card = .error "TypeError"
    ∧ scrape_site envC10 cfgC10 = .error "TypeError" := by
  constructor
  · simp [processCard, hl, hh, hne, hdup, hkw]
  · rfl

/-- Witness for C10 at the fixture card with the empty seen set. -/
theorem keyword_none_raises_type_error_witness :
    processCard envC10 cfgC10 ([], []) cardC10 = Except.error "TypeError" :=
  (keyword_none_raises_type_error envC10 cfgC10 ([], []) cardC10
    { get := fun a => if a = "href" then some "n/1" else none, text := "" } "n/1"
    rfl rfl rfl (by decide) (by simp)).1
